import Mathlib

/-!
Shallow embedding of the OTP authentication core found in
src/backend/app/services/otp_service.py together with the request-code
endpoint of src/backend/app/api/routes/auth.py.

Redis state is modelled per identity tuple (channel, identifier): the four
keys the service touches all embed the tuple in their name, so the state the
service can reach for one tuple is four optional records.  TTLs are modelled
by storing the absolute expiry instant of each record and passing the current
instant to every operation; a record is visible exactly while now < expiry,
matching Redis lazy expiry (EXISTS, GET and TTL treat an expired key as
absent, and INCR on an expired key restarts the counter).
-/

namespace Otp

/-- Tunable OTP settings (src/backend/app/config.py, lines 60-66). -/
structure Settings where
  otp_ttl_seconds : Nat
  otp_cooldown_seconds : Nat
  otp_max_attempts : Nat
  otp_lock_seconds : Nat
deriving Repr, DecidableEq

/-- The default values shipped in config.py. -/
def defaultSettings : Settings := ⟨300, 60, 5, 600⟩

/-- Environment of the service: the settings plus the salted-hash
ingredients.  sha256hex abstracts the external library primitive
hashlib.sha256(bytes).hexdigest(); salt is the salt resolved by
otp_service._get_salt. -/
structure Env where
  settings : Settings
  sha256hex : String → String
  salt : String

/-- otp_service._hash_otp: SHA256(code + salt) rendered as a hex digest. -/
def hash_otp (env : Env) (code : String) : String :=
  env.sha256hex (code ++ env.salt)

/-- Redis state for a single identity tuple.

otp      : the otp:{channel}:{identifier} key — stored hash and expiry;
cooldown : the otp_cd:... key — expiry (its value "1" is never read);
attempts : the otp_att:... key — counter value and expiry;
lock     : the otp_lock:... key — expiry (its value "1" is never read). -/
structure TupleState where
  otp : Option (String × Nat)
  cooldown : Option Nat
  attempts : Option (Nat × Nat)
  lock : Option Nat
deriving Repr, DecidableEq

/-- State of an identity tuple the store has never seen. -/
def emptyState : TupleState := ⟨none, none, none, none⟩

/-- otp_service.is_locked: redis.exists(lock_key) > 0. -/
def is_locked (s : TupleState) (now : Nat) : Bool :=
  match s.lock with
  | some e => decide (now < e)
  | none => false

/-- otp_service.is_on_cooldown: ttl = redis.ttl(cd_key); if ttl > 0 the tuple
is on cooldown with that many seconds remaining, else (false, 0). -/
def is_on_cooldown (s : TupleState) (now : Nat) : Bool × Nat :=
  match s.cooldown with
  | some e => if now < e then (true, e - now) else (false, 0)
  | none => (false, 0)

/-- redis.get(otp_key): the stored hash while the record is alive. -/
def getOtp (s : TupleState) (now : Nat) : Option String :=
  match s.otp with
  | some (v, e) => if now < e then some v else none
  | none => none

/-- Value of the attempt counter as redis.incr sees it: the stored count
while the key is alive, otherwise 0 (absent or expired key). -/
def attemptsCount (s : TupleState) (now : Nat) : Nat :=
  match s.attempts with
  | some (c, e) => if now < e then c else 0
  | none => 0

/-- ASCII digit for d < 10, as produced by Python decimal formatting. -/
def digitChar (d : Nat) : Char := Char.ofNat (48 + d)

/-- Embeds the Python expression f-string of otp_service.py line 102,
code = format of secrets.randbelow(1_000_000) zero-padded to width 6, for
the values randbelow can produce (n < 1000000): the six decimal digits of
n, most significant first, leading zeros preserved. -/
def generate_code (n : Nat) : String :=
  ⟨[digitChar (n / 100000 % 10), digitChar (n / 10000 % 10),
    digitChar (n / 1000 % 10), digitChar (n / 100 % 10),
    digitChar (n / 10 % 10), digitChar (n % 10)]⟩

/-- One iteration of the _tscmp loop: result |= x ^ y. -/
def cmpStep (r : Nat) (p : Char × Char) : Nat :=
  r ||| (p.1.toNat ^^^ p.2.toNat)

/-- cmpStep instrumented with a counter of loop iterations performed. -/
def cmpStepInstr (acc : Nat × Nat) (p : Char × Char) : Nat × Nat :=
  (cmpStep acc.1 p, acc.2 + 1)

/-- hmac.compare_digest as CPython implements it (_tscmp): if the lengths
match, scan a against b accumulating the or of bytewise xors starting from
0; if they differ, scan b against itself starting from 1.  Either way every
scanned position is visited — there is no early exit. -/
def compare_digest (a b : String) : Bool :=
  let bs := b.data
  if a.data.length = bs.length then
    (List.zip a.data bs).foldl cmpStep 0 == 0
  else
    (List.zip bs bs).foldl cmpStep 1 == 0

/-- compare_digest instrumented with a loop counter: the same scan, but the
accumulator also counts how many byte positions the loop visits. -/
def compare_digest_instr (a b : String) : Bool × Nat :=
  let bs := b.data
  let rk :=
    if a.data.length = bs.length then
      (List.zip a.data bs).foldl cmpStepInstr (0, 0)
    else
      (List.zip bs bs).foldl cmpStepInstr (1, 0)
  (rk.1 == 0, rk.2)

/-- otp_service.generate_otp.  The draw of secrets.randbelow(1_000_000) is
passed in as rand; the current instant as now.  Returns the plain code (or
none when locked / on cooldown) and the tuple state after the call. -/
def generate_otp (env : Env) (s : TupleState) (now : Nat) (rand : Nat) :
    Option String × TupleState :=
  if is_locked s now then (none, s)
  else if (is_on_cooldown s now).1 then (none, s)
  else
    let code := generate_code rand
    (some code,
      { s with
        otp := some (hash_otp env code, now + env.settings.otp_ttl_seconds),
        cooldown := some (now + env.settings.otp_cooldown_seconds),
        attempts := none })

/-- otp_service.verify_otp.  Returns the verdict and the tuple state after
the call.  The incr of the attempt counter followed by expire(att_key,
otp_ttl_seconds) is modelled as one update writing (count + 1, now + ttl). -/
def verify_otp (env : Env) (s : TupleState) (now : Nat) (code : String) :
    Bool × TupleState :=
  if is_locked s now then (false, s)
  else
    match getOtp s now with
    | none => (false, s)
    | some stored_hash =>
      let attempts := attemptsCount s now + 1
      let s1 := { s with attempts := some (attempts, now + env.settings.otp_ttl_seconds) }
      if attempts > env.settings.otp_max_attempts then
        (false, { s1 with
          lock := some (now + env.settings.otp_lock_seconds),
          otp := none,
          attempts := none })
      else
        let provided_hash := hash_otp env code
        if compare_digest provided_hash stored_hash then
          (true, { s1 with otp := none, attempts := none })
        else
          (false, s1)

/-- The POST /auth/request-code handler (auth.py lines 91-119) reduced to the
OTP core it drives: its response body (ok, cooldown_seconds) and the tuple
state after the call.  Notification dispatch is external and stateless here. -/
def request_code (env : Env) (s : TupleState) (now : Nat) (rand : Nat) :
    (Bool × Nat) × TupleState :=
  let cd := is_on_cooldown s now
  if cd.1 then ((true, cd.2), s)
  else if is_locked s now then ((true, env.settings.otp_lock_seconds), s)
  else
    match generate_otp env s now rand with
    | (none, s1) => ((true, env.settings.otp_cooldown_seconds), s1)
    | (some _, s1) => ((true, env.settings.otp_cooldown_seconds), s1)

/-- Decimal value of a digit string; measurement helper used to state that
zero-padded codes still determine the drawn number (leading zeros carry). -/
def strVal (s : String) : Nat :=
  s.data.foldl (fun a c => 10 * a + (c.toNat - 48)) 0

/-- ASCII decimal digit test used in the statements about code shape. -/
def isDecimalDigit (c : Char) : Bool :=
  48 ≤ c.toNat && c.toNat ≤ 57

/-- k successive verify_otp calls with the same candidate code at the same
instant, returning the final state. -/
def verifyIter (env : Env) (now : Nat) (code : String) : Nat → TupleState → TupleState
  | 0, s => s
  | k + 1, s => (verify_otp env (verifyIter env now code k s) now code).2

/-- State produced by a successful generate_otp on a fresh tuple. -/
def genState (env : Env) (t rand : Nat) : TupleState :=
  ⟨some (hash_otp env (generate_code rand), t + env.settings.otp_ttl_seconds),
   some (t + env.settings.otp_cooldown_seconds), none, none⟩

/-- Concrete environment used to evaluate the development on closed inputs:
default settings, the identity map in place of the hex digest, empty salt. -/
def witnessEnv : Env :=
  { settings := defaultSettings, sha256hex := fun x => x, salt := "" }

/-- Concrete environment whose digest function returns 64-character strings,
as SHA-256 hexdigests do. -/
def witnessEnv64 : Env :=
  { settings := defaultSettings,
    sha256hex := fun _ => String.mk (List.replicate 64 'h'),
    salt := "" }

/- ──────────────────────────  helper lemmas  ────────────────────────── -/

theorem nat_or_eq_zero {a b : Nat} : a ||| b = 0 ↔ a = 0 ∧ b = 0 := by
  constructor
  · intro h
    refine ⟨Nat.eq_of_testBit_eq fun i => ?_, Nat.eq_of_testBit_eq fun i => ?_⟩ <;>
    · have h1 := congrArg (fun n => Nat.testBit n i) h
      simp [Nat.testBit_or] at h1
      simp [h1]
  · rintro ⟨rfl, rfl⟩
    rfl

theorem foldl_cmpStep_eq_zero (l : List (Char × Char)) (r : Nat) :
    l.foldl cmpStep r = 0 ↔
      r = 0 ∧ ∀ p ∈ l, p.1.toNat ^^^ p.2.toNat = 0 := by
  induction l generalizing r with
  | nil => simp
  | cons p t ih =>
    simp only [List.foldl_cons, ih, cmpStep, nat_or_eq_zero, List.mem_cons]
    constructor
    · rintro ⟨⟨hr, hp⟩, ht⟩
      refine ⟨hr, fun q hq => ?_⟩
      rcases hq with rfl | hq
      · exact hp
      · exact ht q hq
    · rintro ⟨hr, hall⟩
      exact ⟨⟨hr, hall p (Or.inl rfl)⟩, fun q hq => hall q (Or.inr hq)⟩

theorem zip_self_eq {l : List Char} : ∀ p ∈ l.zip l, p.1 = p.2 := by
  induction l with
  | nil => intro p hp; simp at hp
  | cons c t ih =>
    intro p hp
    rcases (by simpa using hp : p = (c, c) ∨ p ∈ t.zip t) with rfl | hp
    · rfl
    · exact ih p hp

theorem eq_of_zip_eq (xs ys : List Char) (hlen : xs.length = ys.length)
    (h : ∀ p ∈ xs.zip ys, p.1 = p.2) : xs = ys := by
  induction xs generalizing ys with
  | nil => cases ys with
    | nil => rfl
    | cons y yt => simp at hlen
  | cons x xt ih =>
    cases ys with
    | nil => simp at hlen
    | cons y yt =>
      have hx : x = y := h (x, y) (by simp)
      subst hx
      have : xt = yt := ih yt (by simpa using hlen) (fun p hp => h p (by simp [hp]))
      rw [this]

theorem char_toNat_inj {c d : Char} (h : c.toNat = d.toNat) : c = d := by
  have hc := Char.ofNat_toNat c
  have hd := Char.ofNat_toNat d
  rw [← hc, ← hd, h]

theorem compare_digest_eq_true_iff (a b : String) :
    compare_digest a b = true ↔ a = b := by
  by_cases h : a.data.length = b.data.length
  · rw [compare_digest, if_pos h]
    rw [beq_iff_eq, foldl_cmpStep_eq_zero]
    constructor
    · rintro ⟨-, hall⟩
      apply String.ext
      exact eq_of_zip_eq _ _ h fun p hp =>
        char_toNat_inj (Nat.xor_eq_zero.mp (hall p hp))
    · rintro rfl
      exact ⟨rfl, fun p hp => Nat.xor_eq_zero.mpr (congrArg Char.toNat (zip_self_eq p hp))⟩
  · rw [compare_digest, if_neg h]
    rw [beq_iff_eq, foldl_cmpStep_eq_zero]
    constructor
    · rintro ⟨h1, -⟩
      exact absurd h1 one_ne_zero
    · rintro rfl
      exact absurd rfl h

theorem compare_digest_self (a : String) : compare_digest a a = true :=
  (compare_digest_eq_true_iff a a).mpr rfl

theorem compare_digest_ne {a b : String} (h : a ≠ b) : compare_digest a b = false := by
  cases hc : compare_digest a b
  · rfl
  · exact absurd ((compare_digest_eq_true_iff a b).mp hc) h

theorem foldl_cmpStepInstr_fst (l : List (Char × Char)) (r k : Nat) :
    (l.foldl cmpStepInstr (r, k)).1 = l.foldl cmpStep r := by
  induction l generalizing r k with
  | nil => rfl
  | cons p t ih => simp [List.foldl_cons, cmpStepInstr, ih]

theorem foldl_cmpStepInstr_snd (l : List (Char × Char)) (r k : Nat) :
    (l.foldl cmpStepInstr (r, k)).2 = k + l.length := by
  induction l generalizing r k with
  | nil => rfl
  | cons p t ih =>
    rw [List.foldl_cons, List.length_cons]
    rw [show cmpStepInstr (r, k) p = (cmpStep r p, k + 1) from rfl, ih]
    omega

theorem compare_digest_instr_fst (a b : String) :
    (compare_digest_instr a b).1 = compare_digest a b := by
  by_cases h : a.data.length = b.data.length
  · rw [compare_digest_instr, compare_digest]
    simp only [h, if_pos]
    rw [foldl_cmpStepInstr_fst]
  · rw [compare_digest_instr, compare_digest]
    simp only [h, if_neg, if_false]
    rw [foldl_cmpStepInstr_fst]

theorem compare_digest_instr_snd (a b : String) :
    (compare_digest_instr a b).2 = b.length := by
  have hlen : b.length = b.data.length := rfl
  by_cases h : a.data.length = b.data.length
  · rw [compare_digest_instr]
    simp only [h, if_pos]
    rw [foldl_cmpStepInstr_snd, List.length_zip, h, hlen]
    omega
  · rw [compare_digest_instr]
    simp only [h, if_neg, if_false]
    rw [foldl_cmpStepInstr_snd, List.length_zip, hlen]
    omega

theorem gen_on_empty (env : Env) (t rand : Nat) :
    generate_otp env emptyState t rand =
      (some (generate_code rand), genState env t rand) := rfl

theorem verify_otp_locked (env : Env) (s : TupleState) (now : Nat) (code : String)
    (h : is_locked s now = true) : verify_otp env s now code = (false, s) := by
  simp [verify_otp, h]

theorem verify_otp_no_record (env : Env) (s : TupleState) (now : Nat) (code : String)
    (hnl : is_locked s now = false) (hno : getOtp s now = none) :
    verify_otp env s now code = (false, s) := by
  simp [verify_otp, hnl, hno]

theorem verify_otp_lock_case (env : Env) (s : TupleState) (now : Nat) (code : String)
    (v : String) (e : Nat)
    (hnl : is_locked s now = false) (hotp : s.otp = some (v, e)) (he : now < e)
    (hgt : env.settings.otp_max_attempts < attemptsCount s now + 1) :
    verify_otp env s now code =
      (false,
        { s with otp := none, attempts := none, lock := some (now + env.settings.otp_lock_seconds) }) := by
  have hget : getOtp s now = some v := by simp [getOtp, hotp, he]
  simp [verify_otp, hnl, hget, hgt]

theorem verify_otp_wrong_case (env : Env) (s : TupleState) (now : Nat) (code : String)
    (v : String) (e : Nat)
    (hnl : is_locked s now = false) (hotp : s.otp = some (v, e)) (he : now < e)
    (hle : attemptsCount s now + 1 ≤ env.settings.otp_max_attempts)
    (hcmp : compare_digest (hash_otp env code) v = false) :
    verify_otp env s now code =
      (false, { s with attempts := some (attemptsCount s now + 1,
                       now + env.settings.otp_ttl_seconds) }) := by
  have hget : getOtp s now = some v := by simp [getOtp, hotp, he]
  have hnot : ¬ (attemptsCount s now + 1 > env.settings.otp_max_attempts) := by omega
  simp [verify_otp, hnl, hget, hnot, hcmp]

theorem verify_otp_success_case (env : Env) (s : TupleState) (now : Nat) (code : String)
    (v : String) (e : Nat)
    (hnl : is_locked s now = false) (hotp : s.otp = some (v, e)) (he : now < e)
    (hle : attemptsCount s now + 1 ≤ env.settings.otp_max_attempts)
    (hcmp : compare_digest (hash_otp env code) v = true) :
    verify_otp env s now code =
      (true, { s with otp := none, attempts := none }) := by
  have hget : getOtp s now = some v := by simp [getOtp, hotp, he]
  have hnot : ¬ (attemptsCount s now + 1 > env.settings.otp_max_attempts) := by omega
  simp [verify_otp, hnl, hget, hnot, hcmp]

theorem verifyIter_wrong (env : Env) (t rand : Nat) (w : String)
    (httl : 0 < env.settings.otp_ttl_seconds)
    (hcmp : compare_digest (hash_otp env w) (hash_otp env (generate_code rand)) = false) :
    ∀ k, k ≤ env.settings.otp_max_attempts →
      verifyIter env t w k (genState env t rand) =
        if k = 0 then genState env t rand
        else { genState env t rand with
               attempts := some (k, t + env.settings.otp_ttl_seconds) } := by
  intro k
  induction k with
  | zero => intro h; simp [verifyIter]
  | succ k ih =>
    intro hk
    have he : t < t + env.settings.otp_ttl_seconds := by omega
    simp only [verifyIter]
    rw [ih (by omega)]
    by_cases hk0 : k = 0
    · subst hk0
      rw [if_pos rfl]
      rw [verify_otp_wrong_case env (genState env t rand) t w
            (hash_otp env (generate_code rand)) (t + env.settings.otp_ttl_seconds)
            rfl rfl he (by simpa [attemptsCount, genState] using hk) hcmp]
      simp [attemptsCount, genState]
    · rw [if_neg hk0, if_neg (Nat.succ_ne_zero k)]
      have hatt : attemptsCount
          { genState env t rand with
            attempts := some (k, t + env.settings.otp_ttl_seconds) } t = k := by
        simp [attemptsCount, he]
      rw [verify_otp_wrong_case env
            { genState env t rand with
              attempts := some (k, t + env.settings.otp_ttl_seconds) } t w
            (hash_otp env (generate_code rand)) (t + env.settings.otp_ttl_seconds)
            rfl rfl he (by rw [hatt]; omega) hcmp]
      rw [hatt]

theorem digitChar_toNat {d : Nat} (h : d < 10) : (digitChar d).toNat = 48 + d := by
  interval_cases d <;> decide

theorem digitChar_isDecimal {d : Nat} (h : d < 10) :
    isDecimalDigit (digitChar d) = true := by
  interval_cases d <;> decide

theorem isDecimalDigit_bounds {c : Char} (h : isDecimalDigit c = true) :
    48 ≤ c.toNat ∧ c.toNat ≤ 57 := by
  simpa [isDecimalDigit] using h

theorem digitChar_of_toNat {c : Char} (h48 : 48 ≤ c.toNat) (h57 : c.toNat ≤ 57) :
    digitChar (c.toNat - 48) = c := by
  unfold digitChar
  rw [show 48 + (c.toNat - 48) = c.toNat by omega]
  exact Char.ofNat_toNat c

/- ──────────────────────────  claim theorems  ────────────────────────── -/

/-- C3: in verify_otp, whenever the post-increment attempt count strictly
exceeds otp_max_attempts, the call creates the lock record with TTL
otp_lock_seconds, deletes both the OTP record and the attempt counter, and
returns false — for every candidate code, the correct one included, since
the result does not depend on the code at all. -/
theorem claim_verify_lock_transition (env : Env) (s : TupleState) (now : Nat)
    (code : String) (v : String) (e : Nat)
    (hnl : is_locked s now = false) (hotp : s.otp = some (v, e)) (he : now < e)
    (hgt : env.settings.otp_max_attempts < attemptsCount s now + 1) :
    verify_otp env s now code =
      (false,
        { s with otp := none, attempts := none, lock := some (now + env.settings.otp_lock_seconds) }) :=
  verify_otp_lock_case env s now code v e hnl hotp he hgt

theorem claim_verify_lock_transition_witness :
    verify_otp witnessEnv ⟨some ("x", 10), none, some (5, 10), none⟩ 0 "000000" =
      (false, ⟨none, none, none, some 600⟩) :=
  claim_verify_lock_transition witnessEnv ⟨some ("x", 10), none, some (5, 10), none⟩
    0 "000000" "x" 10 rfl rfl (by decide) (by decide)

/-- C4: while the lock record is alive it overrides every other state:
generate_otp returns none and verify_otp returns false whatever the
candidate code and whatever the cooldown, OTP-record or attempt-counter
state (an expired cooldown included), and neither call changes the state. -/
theorem claim_lock_overrides (env : Env) (s : TupleState) (now rand : Nat)
    (code : String) (e : Nat) (hl : s.lock = some e) (he : now < e) :
    generate_otp env s now rand = (none, s) ∧
    verify_otp env s now code = (false, s) := by
  have hlk : is_locked s now = true := by simp [is_locked, hl, he]
  exact ⟨by simp [generate_otp, hlk], verify_otp_locked env s now code hlk⟩

theorem claim_lock_overrides_witness :
    generate_otp witnessEnv ⟨some ("h", 50), some 0, some (2, 50), some 5⟩ 0 7 =
      (none, ⟨some ("h", 50), some 0, some (2, 50), some 5⟩) ∧
    verify_otp witnessEnv ⟨some ("h", 50), some 0, some (2, 50), some 5⟩ 0 "000007" =
      (false, ⟨some ("h", 50), some 0, some (2, 50), some 5⟩) :=
  claim_lock_overrides witnessEnv ⟨some ("h", 50), some 0, some (2, 50), some 5⟩
    0 7 "000007" 5 rfl (by decide)

/-- C7: verify_otp on an unlocked tuple whose OTP record is absent or has
expired returns false for every candidate code and leaves the state exactly
as it was — no attempt is counted and no lock can result. -/
theorem claim_verify_no_active_record (env : Env) (s : TupleState) (now : Nat)
    (code : String) (hnl : is_locked s now = false)
    (hno : s.otp = none ∨ ∀ v e, s.otp = some (v, e) → e ≤ now) :
    verify_otp env s now code = (false, s) := by
  have hg : getOtp s now = none := by
    rcases hno with h | h
    · simp [getOtp, h]
    · cases hotp : s.otp with
      | none => simp [getOtp, hotp]
      | some ve =>
        cases ve with
        | mk v e => simp [getOtp, hotp, Nat.not_lt.mpr (h v e hotp)]
  exact verify_otp_no_record env s now code hnl hg

theorem claim_verify_no_active_record_witness :
    verify_otp witnessEnv emptyState 3 "123456" = (false, emptyState) ∧
    verify_otp witnessEnv ⟨some ("h", 5), none, none, none⟩ 5 "123456" =
      (false, ⟨some ("h", 5), none, none, none⟩) :=
  ⟨claim_verify_no_active_record witnessEnv emptyState 3 "123456" rfl (Or.inl rfl),
   claim_verify_no_active_record witnessEnv ⟨some ("h", 5), none, none, none⟩ 5 "123456"
     rfl (Or.inr (by rintro v e h; simp at h; obtain ⟨-, h2⟩ := h; omega))⟩

/-- C8: is_on_cooldown answers (true, remaining TTL) exactly when the
cooldown record exists and has not expired, and (false, 0) otherwise; the
expiry stored is set-time + TTL, so e - now is the record's remaining TTL.
The operation is a pure read: it returns no state and can change nothing. -/
theorem claim_is_on_cooldown_spec (s : TupleState) (now : Nat) :
    ((is_on_cooldown s now).1 = true ↔ ∃ e, s.cooldown = some e ∧ now < e) ∧
    (∀ e, s.cooldown = some e → now < e → is_on_cooldown s now = (true, e - now)) ∧
    ((¬ ∃ e, s.cooldown = some e ∧ now < e) → is_on_cooldown s now = (false, 0)) := by
  refine ⟨?_, ?_, ?_⟩
  · cases hc : s.cooldown with
    | none => simp [is_on_cooldown, hc]
    | some e => by_cases he : now < e <;> simp [is_on_cooldown, hc, he]
  · intro e hc he
    simp [is_on_cooldown, hc, he]
  · intro h
    cases hc : s.cooldown with
    | none => simp [is_on_cooldown, hc]
    | some e =>
      have hne : ¬ now < e := fun he => h ⟨e, hc, he⟩
      simp [is_on_cooldown, hc, hne]

theorem claim_is_on_cooldown_spec_witness :
    is_on_cooldown ⟨none, some 60, none, none⟩ 10 = (true, 50) ∧
    is_on_cooldown ⟨none, some 60, none, none⟩ 60 = (false, 0) :=
  ⟨(claim_is_on_cooldown_spec ⟨none, some 60, none, none⟩ 10).2.1 60 rfl (by decide),
   (claim_is_on_cooldown_spec ⟨none, some 60, none, none⟩ 60).2.2
     (by rintro ⟨e, he, hlt⟩; cases he; omega)⟩

/-- C2 (amended): the request-code endpoint always answers ok = true, so the
ok flag reveals nothing; but the cooldown_seconds field differs between the
two states — a tuple on cooldown is answered with the remaining cooldown
TTL while a locked, not cooling-down tuple is answered with
otp_lock_seconds — so the response does distinguish locked from on-cooldown
whenever those two numbers differ. -/
theorem claim_request_code_responses (env : Env) (s : TupleState) (now rand : Nat) :
    ((request_code env s now rand).1).1 = true ∧
    ((is_on_cooldown s now).1 = true →
      (request_code env s now rand).1 = (true, (is_on_cooldown s now).2)) ∧
    ((is_on_cooldown s now).1 = false → is_locked s now = true →
      (request_code env s now rand).1 = (true, env.settings.otp_lock_seconds)) := by
  refine ⟨?_, ?_, ?_⟩
  · cases hcd : (is_on_cooldown s now).1 with
    | true => simp [request_code, hcd]
    | false =>
      cases hl : is_locked s now with
      | true => simp [request_code, hcd, hl]
      | false =>
        cases hg : generate_otp env s now rand with
        | mk co s1 => cases co <;> simp [request_code, hcd, hl, hg]
  · intro h
    simp [request_code, h]
  · intro hcd hl
    simp [request_code, hcd, hl]

theorem claim_request_code_responses_witness :
    (request_code witnessEnv ⟨none, some 60, none, none⟩ 0 0).1 = (true, 60) ∧
    (request_code witnessEnv ⟨none, none, none, some 600⟩ 0 0).1 = (true, 600) :=
  ⟨(claim_request_code_responses witnessEnv ⟨none, some 60, none, none⟩ 0 0).2.1 rfl,
   (claim_request_code_responses witnessEnv ⟨none, none, none, some 600⟩ 0 0).2.2 rfl rfl⟩

/-- C2 counterexample: with the default settings the response to a locked
tuple carries cooldown_seconds = 600 while the response to a tuple on
cooldown carries the remaining TTL (60 here), so the two responses are not
identical and an end user can tell the states apart. -/
theorem claim_request_code_responses_cex :
    (request_code witnessEnv ⟨none, none, none, some 600⟩ 0 0).1 ≠
      (request_code witnessEnv ⟨none, some 60, none, none⟩ 0 0).1 := by decide

/-- C5: generate_otp returns none and leaves the state unchanged when the
tuple is locked or on cooldown; otherwise it stores the digest of the fresh
code under the OTP record with TTL otp_ttl_seconds, sets the cooldown record
with TTL otp_cooldown_seconds, deletes the attempt counter and returns the
plaintext code; what is stored is the digest, which (digests being
64-character hex strings while codes have 6 characters) is never the
plaintext itself. -/
theorem claim_generate_otp_spec (env : Env) (s : TupleState) (now rand : Nat) :
    (is_locked s now = true ∨ (is_on_cooldown s now).1 = true →
      generate_otp env s now rand = (none, s)) ∧
    (is_locked s now = false → (is_on_cooldown s now).1 = false →
      generate_otp env s now rand =
        (some (generate_code rand),
          { s with
            otp := some (hash_otp env (generate_code rand), now + env.settings.otp_ttl_seconds),
            cooldown := some (now + env.settings.otp_cooldown_seconds),
            attempts := none })) ∧
    ((∀ c, (env.sha256hex c).length = 64) → is_locked s now = false →
      (is_on_cooldown s now).1 = false →
      ((generate_otp env s now rand).2).otp =
        some (hash_otp env (generate_code rand), now + env.settings.otp_ttl_seconds) ∧
      hash_otp env (generate_code rand) ≠ generate_code rand) := by
  refine ⟨?_, ?_, ?_⟩
  · rintro (h | h)
    · simp [generate_otp, h]
    · cases hl : is_locked s now with
      | true => simp [generate_otp, hl]
      | false => simp [generate_otp, hl, h]
  · intro hl hcd
    simp [generate_otp, hl, hcd]
  · intro h64 hl hcd
    constructor
    · simp [generate_otp, hl, hcd]
    · intro heq
      have h1 : (hash_otp env (generate_code rand)).length = 64 := h64 _
      have h2 : (generate_code rand).length = 6 := rfl
      rw [heq, h2] at h1
      exact absurd h1 (by norm_num)

theorem claim_generate_otp_spec_witness :
    generate_otp witnessEnv ⟨none, some 60, none, none⟩ 0 7 =
      (none, ⟨none, some 60, none, none⟩) ∧
    generate_otp witnessEnv emptyState 0 7 =
      (some (generate_code 7),
        { emptyState with
          otp := some (hash_otp witnessEnv (generate_code 7), 0 + 300),
          cooldown := some (0 + 60),
          attempts := none }) ∧
    (((generate_otp witnessEnv64 emptyState 0 7).2).otp =
        some (hash_otp witnessEnv64 (generate_code 7), 0 + 300) ∧
      hash_otp witnessEnv64 (generate_code 7) ≠ generate_code 7) :=
  ⟨(claim_generate_otp_spec witnessEnv ⟨none, some 60, none, none⟩ 0 7).1 (Or.inr rfl),
   (claim_generate_otp_spec witnessEnv emptyState 0 7).2.1 rfl rfl,
   (claim_generate_otp_spec witnessEnv64 emptyState 0 7).2.2 (fun _ => rfl) rfl rfl⟩

/-- C6: on a fresh tuple, generate_otp returns a code; an immediate
verify_otp with that code returns true and deletes the OTP record and the
attempt counter (the cooldown stays); a second immediate verify_otp with
the same code returns false, the record being gone. -/
theorem claim_generate_then_verify (env : Env) (t rand : Nat)
    (httl : 0 < env.settings.otp_ttl_seconds)
    (hmax : 1 ≤ env.settings.otp_max_attempts) :
    ∃ code,
      (generate_otp env emptyState t rand).1 = some code ∧
      verify_otp env (generate_otp env emptyState t rand).2 t code =
        (true, { (generate_otp env emptyState t rand).2 with otp := none, attempts := none }) ∧
      (verify_otp env
        (verify_otp env (generate_otp env emptyState t rand).2 t code).2 t code).1 = false := by
  have hgen : (generate_otp env emptyState t rand).2 = genState env t rand := rfl
  have he : t < t + env.settings.otp_ttl_seconds := by omega
  have hv1 : verify_otp env (genState env t rand) t (generate_code rand) =
      (true, { genState env t rand with otp := none, attempts := none }) := by
    refine verify_otp_success_case env (genState env t rand) t (generate_code rand)
      (hash_otp env (generate_code rand)) (t + env.settings.otp_ttl_seconds)
      rfl rfl he ?_ (compare_digest_self _)
    simpa [attemptsCount, genState] using hmax
  refine ⟨generate_code rand, rfl, ?_, ?_⟩
  · rw [hgen, hv1]
  · rw [hgen, hv1]
    exact congrArg Prod.fst
      (verify_otp_no_record env { genState env t rand with otp := none, attempts := none }
        t (generate_code rand) rfl rfl)

theorem claim_generate_then_verify_witness :
    ∃ code,
      (generate_otp witnessEnv emptyState 0 7).1 = some code ∧
      verify_otp witnessEnv (generate_otp witnessEnv emptyState 0 7).2 0 code =
        (true, { (generate_otp witnessEnv emptyState 0 7).2 with otp := none, attempts := none }) ∧
      (verify_otp witnessEnv
        (verify_otp witnessEnv (generate_otp witnessEnv emptyState 0 7).2 0 code).2
        0 code).1 = false :=
  claim_generate_then_verify witnessEnv 0 7 (by decide) (by decide)

/-- C1 (amended): on a fresh tuple with max_attempts = M, after a successful
generate_otp, M wrong-code verify_otp calls in a row leave the tuple NOT yet
locked (the counter stands at M); a subsequent verify_otp with the correct
code still returns false — it is this M+1-st call that trips the lock, after
which is_locked returns true. -/
theorem claim_brute_force_lock_boundary (env : Env) (t rand : Nat) (w : String)
    (httl : 0 < env.settings.otp_ttl_seconds)
    (hlock : 0 < env.settings.otp_lock_seconds)
    (hwrong : hash_otp env w ≠ hash_otp env (generate_code rand)) :
    is_locked (verifyIter env t w env.settings.otp_max_attempts
      (generate_otp env emptyState t rand).2) t = false ∧
    (verify_otp env (verifyIter env t w env.settings.otp_max_attempts
      (generate_otp env emptyState t rand).2) t (generate_code rand)).1 = false ∧
    is_locked (verify_otp env (verifyIter env t w env.settings.otp_max_attempts
      (generate_otp env emptyState t rand).2) t (generate_code rand)).2 t = true := by
  have hcmp := compare_digest_ne hwrong
  have hgen : (generate_otp env emptyState t rand).2 = genState env t rand := rfl
  have he : t < t + env.settings.otp_ttl_seconds := by omega
  rw [hgen]
  have hfin := verifyIter_wrong env t rand w httl hcmp
    env.settings.otp_max_attempts (le_refl _)
  rw [hfin]
  by_cases hM0 : env.settings.otp_max_attempts = 0
  · rw [if_pos hM0]
    have hlk : verify_otp env (genState env t rand) t (generate_code rand) =
        (false,
          { genState env t rand with
            otp := none,
            attempts := none,
            lock := some (t + env.settings.otp_lock_seconds) }) := by
      refine verify_otp_lock_case env (genState env t rand) t (generate_code rand)
        (hash_otp env (generate_code rand)) (t + env.settings.otp_ttl_seconds)
        rfl rfl he ?_
      simp [attemptsCount, genState, hM0]
    refine ⟨rfl, ?_, ?_⟩ <;> rw [hlk]
    exact decide_eq_true (show t < t + env.settings.otp_lock_seconds by omega)
  · rw [if_neg hM0]
    have hatt : attemptsCount
        { genState env t rand with
          attempts := some (env.settings.otp_max_attempts,
            t + env.settings.otp_ttl_seconds) } t = env.settings.otp_max_attempts := by
      simp [attemptsCount, he]
    have hlk : verify_otp env
        { genState env t rand with
          attempts := some (env.settings.otp_max_attempts,
            t + env.settings.otp_ttl_seconds) } t (generate_code rand) =
        (false,
          { genState env t rand with
            otp := none,
            attempts := none,
            lock := some (t + env.settings.otp_lock_seconds) }) := by
      refine verify_otp_lock_case env
        { genState env t rand with
          attempts := some (env.settings.otp_max_attempts,
            t + env.settings.otp_ttl_seconds) } t (generate_code rand)
        (hash_otp env (generate_code rand)) (t + env.settings.otp_ttl_seconds)
        rfl rfl he ?_
      rw [hatt]
      omega
    refine ⟨rfl, ?_, ?_⟩ <;> rw [hlk]
    exact decide_eq_true (show t < t + env.settings.otp_lock_seconds by omega)

theorem claim_brute_force_lock_boundary_witness :
    is_locked (verifyIter witnessEnv 0 "999999" 5
      (generate_otp witnessEnv emptyState 0 7).2) 0 = false ∧
    (verify_otp witnessEnv (verifyIter witnessEnv 0 "999999" 5
      (generate_otp witnessEnv emptyState 0 7).2) 0 (generate_code 7)).1 = false ∧
    is_locked (verify_otp witnessEnv (verifyIter witnessEnv 0 "999999" 5
      (generate_otp witnessEnv emptyState 0 7).2) 0 (generate_code 7)).2 0 = true :=
  claim_brute_force_lock_boundary witnessEnv 0 7 "999999" (by decide) (by decide) (by decide)

/-- C1 counterexample: with the default max_attempts = 5, after generate_otp
on a fresh tuple and five wrong-code verify_otp calls in a row, is_locked is
still false — the claim that the tuple is locked after exactly max_attempts
wrong calls fails (the lock only trips on the following call). -/
theorem claim_brute_force_lock_boundary_cex :
    is_locked (verifyIter witnessEnv 0 "999999" 5
      (generate_otp witnessEnv emptyState 0 7).2) 0 = false := by decide

/-- C9: every code a successful generate_otp returns is a string of exactly
six decimal digits, zero-padded — strVal recovers the drawn number, so
leading zeros are preserved and distinct draws below 1000000 give distinct
codes — and conversely every six-decimal-digit string, 000000 through
999999, is the code of some draw below 1000000: the full range is covered. -/
theorem claim_generated_code_shape :
    (∀ (env : Env) (s : TupleState) (now rand : Nat) (code : String),
      (generate_otp env s now rand).1 = some code →
      code.length = 6 ∧ (∀ c ∈ code.data, isDecimalDigit c = true) ∧
      (rand < 1000000 → strVal code = rand)) ∧
    (∀ s : String, s.length = 6 → (∀ c ∈ s.data, isDecimalDigit c = true) →
      ∃ n, n < 1000000 ∧ generate_code n = s) := by
  constructor
  · intro env s now rand code hsome
    have hcode : code = generate_code rand := by
      cases hl : is_locked s now with
      | true => rw [generate_otp] at hsome; simp [hl] at hsome
      | false =>
        cases hcd : (is_on_cooldown s now).1 with
        | true => rw [generate_otp] at hsome; simp [hl, hcd] at hsome
        | false =>
          rw [generate_otp] at hsome
          simp [hl, hcd] at hsome
          exact hsome.symm
    subst hcode
    have hdata : (generate_code rand).data =
        [digitChar (rand / 100000 % 10), digitChar (rand / 10000 % 10),
         digitChar (rand / 1000 % 10), digitChar (rand / 100 % 10),
         digitChar (rand / 10 % 10), digitChar (rand % 10)] := rfl
    refine ⟨rfl, ?_, ?_⟩
    · intro c hc
      rw [hdata] at hc
      simp only [List.mem_cons, List.not_mem_nil, or_false] at hc
      rcases hc with rfl | rfl | rfl | rfl | rfl | rfl <;>
        exact digitChar_isDecimal (Nat.mod_lt _ (by norm_num))
    · intro hr
      rw [strVal, hdata]
      simp only [List.foldl_cons, List.foldl_nil]
      rw [digitChar_toNat (show rand / 100000 % 10 < 10 from Nat.mod_lt _ (by norm_num)),
          digitChar_toNat (show rand / 10000 % 10 < 10 from Nat.mod_lt _ (by norm_num)),
          digitChar_toNat (show rand / 1000 % 10 < 10 from Nat.mod_lt _ (by norm_num)),
          digitChar_toNat (show rand / 100 % 10 < 10 from Nat.mod_lt _ (by norm_num)),
          digitChar_toNat (show rand / 10 % 10 < 10 from Nat.mod_lt _ (by norm_num)),
          digitChar_toNat (show rand % 10 < 10 from Nat.mod_lt _ (by norm_num))]
      omega
  · intro s hlen hdig
    obtain ⟨l⟩ := s
    have hlen' : l.length = 6 := hlen
    rcases l with - | ⟨c1, - | ⟨c2, - | ⟨c3, - | ⟨c4, - | ⟨c5, - | ⟨c6, - | ⟨c7, l⟩⟩⟩⟩⟩⟩⟩
    · simp at hlen'
    · simp at hlen'
    · simp at hlen'
    · simp at hlen'
    · simp at hlen'
    · simp at hlen'
    · obtain ⟨h1a, h1b⟩ := isDecimalDigit_bounds (hdig c1 (by show c1 ∈ [c1, c2, c3, c4, c5, c6]; simp))
      obtain ⟨h2a, h2b⟩ := isDecimalDigit_bounds (hdig c2 (by show c2 ∈ [c1, c2, c3, c4, c5, c6]; simp))
      obtain ⟨h3a, h3b⟩ := isDecimalDigit_bounds (hdig c3 (by show c3 ∈ [c1, c2, c3, c4, c5, c6]; simp))
      obtain ⟨h4a, h4b⟩ := isDecimalDigit_bounds (hdig c4 (by show c4 ∈ [c1, c2, c3, c4, c5, c6]; simp))
      obtain ⟨h5a, h5b⟩ := isDecimalDigit_bounds (hdig c5 (by show c5 ∈ [c1, c2, c3, c4, c5, c6]; simp))
      obtain ⟨h6a, h6b⟩ := isDecimalDigit_bounds (hdig c6 (by show c6 ∈ [c1, c2, c3, c4, c5, c6]; simp))
      have hsv : strVal ⟨[c1, c2, c3, c4, c5, c6]⟩ =
          10 * (10 * (10 * (10 * (10 * (10 * 0 + (c1.toNat - 48)) + (c2.toNat - 48)) +
            (c3.toNat - 48)) + (c4.toNat - 48)) + (c5.toNat - 48)) + (c6.toNat - 48) := rfl
      refine ⟨strVal ⟨[c1, c2, c3, c4, c5, c6]⟩, by rw [hsv]; omega, ?_⟩
      have e1 : strVal ⟨[c1, c2, c3, c4, c5, c6]⟩ / 100000 % 10 = c1.toNat - 48 := by
        rw [hsv]; omega
      have e2 : strVal ⟨[c1, c2, c3, c4, c5, c6]⟩ / 10000 % 10 = c2.toNat - 48 := by
        rw [hsv]; omega
      have e3 : strVal ⟨[c1, c2, c3, c4, c5, c6]⟩ / 1000 % 10 = c3.toNat - 48 := by
        rw [hsv]; omega
      have e4 : strVal ⟨[c1, c2, c3, c4, c5, c6]⟩ / 100 % 10 = c4.toNat - 48 := by
        rw [hsv]; omega
      have e5 : strVal ⟨[c1, c2, c3, c4, c5, c6]⟩ / 10 % 10 = c5.toNat - 48 := by
        rw [hsv]; omega
      have e6 : strVal ⟨[c1, c2, c3, c4, c5, c6]⟩ % 10 = c6.toNat - 48 := by
        rw [hsv]; omega
      show (⟨[digitChar (strVal ⟨[c1, c2, c3, c4, c5, c6]⟩ / 100000 % 10),
             digitChar (strVal ⟨[c1, c2, c3, c4, c5, c6]⟩ / 10000 % 10),
             digitChar (strVal ⟨[c1, c2, c3, c4, c5, c6]⟩ / 1000 % 10),
             digitChar (strVal ⟨[c1, c2, c3, c4, c5, c6]⟩ / 100 % 10),
             digitChar (strVal ⟨[c1, c2, c3, c4, c5, c6]⟩ / 10 % 10),
             digitChar (strVal ⟨[c1, c2, c3, c4, c5, c6]⟩ % 10)]⟩ : String) =
          ⟨[c1, c2, c3, c4, c5, c6]⟩
      rw [e1, e2, e3, e4, e5, e6]
      rw [digitChar_of_toNat h1a h1b, digitChar_of_toNat h2a h2b, digitChar_of_toNat h3a h3b,
          digitChar_of_toNat h4a h4b, digitChar_of_toNat h5a h5b, digitChar_of_toNat h6a h6b]
    · simp at hlen'

theorem claim_generated_code_shape_witness :
    ((generate_code 90125).length = 6 ∧
      (∀ c ∈ (generate_code 90125).data, isDecimalDigit c = true) ∧
      (90125 < 1000000 → strVal (generate_code 90125) = 90125)) ∧
    (∃ n, n < 1000000 ∧ generate_code n = "090125") :=
  ⟨claim_generated_code_shape.1 witnessEnv emptyState 0 90125 (generate_code 90125) rfl,
   claim_generated_code_shape.2 "090125" rfl (by decide)⟩

/-- C10: the digest comparison in verify_otp is hmac.compare_digest, whose
loop visits a number of byte positions that depends only on the length of
its second argument — never on the byte values or on where the inputs first
differ, so there is no short-circuit whose timing could leak digest bytes —
and whenever verify_otp reaches the comparison its verdict is exactly
compare_digest applied to the candidate digest and the stored digest. -/
theorem claim_constant_time_comparison :
    (∀ a b : String, (compare_digest_instr a b).2 = b.length) ∧
    (∀ a b : String, (compare_digest_instr a b).1 = compare_digest a b) ∧
    (∀ (env : Env) (s : TupleState) (now : Nat) (code : String) (v : String) (e : Nat),
      is_locked s now = false → s.otp = some (v, e) → now < e →
      attemptsCount s now + 1 ≤ env.settings.otp_max_attempts →
      (verify_otp env s now code).1 = compare_digest (hash_otp env code) v) := by
  refine ⟨compare_digest_instr_snd, compare_digest_instr_fst, ?_⟩
  intro env s now code v e hnl hotp he hle
  cases hc : compare_digest (hash_otp env code) v with
  | false => rw [verify_otp_wrong_case env s now code v e hnl hotp he hle hc]
  | true => rw [verify_otp_success_case env s now code v e hnl hotp he hle hc]

theorem claim_constant_time_comparison_witness :
    (compare_digest_instr "abcdef" "abcdeg").2 = 6 ∧
    (compare_digest_instr "zzzzzz" "abcdeg").2 = 6 ∧
    (verify_otp witnessEnv ⟨some ("000007", 300), some 60, none, none⟩ 0 "000007").1 =
      compare_digest (hash_otp witnessEnv "000007") "000007" :=
  ⟨claim_constant_time_comparison.1 "abcdef" "abcdeg",
   claim_constant_time_comparison.1 "zzzzzz" "abcdeg",
   claim_constant_time_comparison.2.2 witnessEnv ⟨some ("000007", 300), some 60, none, none⟩
     0 "000007" "000007" 300 rfl rfl (by decide) (by decide)⟩

end Otp
